import Mathlib

/-!
Shallow embedding of the build helper `setup.py` of the Bob toolbox and of
the plugin discovery loop of `torch/filters.py`, together with theorems
checking the specified behaviour of the flag classifier, the package query
client, the linker capability probe, the extension descriptor builder and
the filter registry.  External effects (the `pkg-config` process, the
linker process, the filesystem) are passed in as explicit function
parameters, so every definition is executable.
-/

namespace Bob

/-- Order-preserving deduplication, following the helper `uniq` inside
`pkgconfig` (`setup.py` lines 41-55): walk the sequence and keep an element
only when its marker (the identity key, since `idfun` defaults to the
identity) has not been seen before. -/
def uniqAux (seen : List String) : List String → List String
  | [] => []
  | x :: xs => if x ∈ seen then uniqAux seen xs else x :: uniqAux (x :: seen) xs

/-- Python `uniq(seq)` with the default identity key function. -/
def uniq (l : List String) : List String := uniqAux [] l

/-- The dictionary `kw` built by `pkgconfig`: a Python dict whose keys are a
subset of the four bucket names.  A field holding `none` models the key
being absent from the dict; `some l` models the key being present with
value `l`. -/
structure FlagDict where
  include_dirs : Option (List String) := none
  library_dirs : Option (List String) := none
  libraries : Option (List String) := none
  extra_compile_args : Option (List String) := none
deriving DecidableEq, Repr

/-- Python `kw.setdefault(key, []).append(x)`: create the key with `[x]`
when absent, otherwise append `x` at the end of the stored list. -/
def setdefaultAppend : Option (List String) → String → Option (List String)
  | none, x => some [x]
  | some l, x => some (l ++ [x])

/-- One iteration of the token loop of `pkgconfig` (`setup.py` lines 81-86):
look the token's first two characters up in `flag_map` and append the
remainder to the matching bucket, otherwise append the whole token to
`extra_compile_args`. -/
def classifyToken (kw : FlagDict) (token : String) : FlagDict :=
  if token.take 2 == "-I" then
    { kw with include_dirs := setdefaultAppend kw.include_dirs (token.drop 2) }
  else if token.take 2 == "-L" then
    { kw with library_dirs := setdefaultAppend kw.library_dirs (token.drop 2) }
  else if token.take 2 == "-l" then
    { kw with libraries := setdefaultAppend kw.libraries (token.drop 2) }
  else
    { kw with extra_compile_args := setdefaultAppend kw.extra_compile_args token }

/-- The token loop of `pkgconfig` before deduplication. -/
def classifyRaw (tokens : List String) : FlagDict := tokens.foldl classifyToken {}

/-- Apply a list transformation to every bucket that is present, following
the final loop `for k, v in kw.items(): kw[k] = uniq(v)`. -/
def FlagDict.mapBuckets (f : List String → List String) (kw : FlagDict) : FlagDict :=
  { include_dirs := kw.include_dirs.map f
    library_dirs := kw.library_dirs.map f
    libraries := kw.libraries.map f
    extra_compile_args := kw.extra_compile_args.map f }

/-- The flag classifier of `pkgconfig`: bucket the tokens, then deduplicate
every bucket that is present. -/
def classify (tokens : List String) : FlagDict :=
  (classifyRaw tokens).mapBuckets uniq

/-- Helper for `pySplit`: walk the characters accumulating the current
token in reverse; whitespace closes the token, and empty tokens are
dropped. -/
def pySplitAux : List Char → List Char → List String
  | [], acc => if acc.isEmpty then [] else [⟨acc.reverse⟩]
  | c :: cs, acc =>
    if c.isWhitespace then
      (if acc.isEmpty then [] else [⟨acc.reverse⟩]) ++ pySplitAux cs []
    else pySplitAux cs (c :: acc)

/-- Python `str.split()` with no argument: split on runs of whitespace and
drop empty pieces. -/
def pySplit (s : String) : List String := pySplitAux s.data []

/-- The function `pkgconfig(package)` of `setup.py` (lines 39-91), with the
external provider's behaviour passed in as its exit status and decoded
standard output: on non-zero exit return the empty dict, otherwise classify
the whitespace-tokenized output. -/
def pkgconfig (returncode : Int) (output : String) : FlagDict :=
  if returncode ≠ 0 then {} else classify (pySplit output)

/-- Python `kw.get(key, [])` on a bucket: the stored list when the key is
present, the empty list otherwise. -/
def bucketGet (o : Option (List String)) : List String := o.getD []

lemma foldl_setdefaultAppend_some (l m : List String) :
    l.foldl setdefaultAppend (some m) = some (m ++ l) := by
  induction l generalizing m with
  | nil => simp
  | cons x xs ih => simp [setdefaultAppend, ih]

lemma foldl_setdefaultAppend_none (l : List String) :
    l.foldl setdefaultAppend none = if l.isEmpty then none else some l := by
  cases l with
  | nil => rfl
  | cons x xs => simp [setdefaultAppend, foldl_setdefaultAppend_some]

lemma classifyToken_include (kw : FlagDict) (t : String) :
    (classifyToken kw t).include_dirs =
      if t.take 2 == "-I" then setdefaultAppend kw.include_dirs (t.drop 2)
      else kw.include_dirs := by
  unfold classifyToken
  split_ifs <;> rfl

lemma classifyToken_library (kw : FlagDict) (t : String) :
    (classifyToken kw t).library_dirs =
      if t.take 2 == "-L" then setdefaultAppend kw.library_dirs (t.drop 2)
      else kw.library_dirs := by
  unfold classifyToken
  split_ifs with h1 h2 h3 <;> simp_all

lemma classifyToken_libraries (kw : FlagDict) (t : String) :
    (classifyToken kw t).libraries =
      if t.take 2 == "-l" then setdefaultAppend kw.libraries (t.drop 2)
      else kw.libraries := by
  unfold classifyToken
  split_ifs with h1 h2 h3 <;> simp_all

lemma classifyToken_extra (kw : FlagDict) (t : String) :
    (classifyToken kw t).extra_compile_args =
      if !(t.take 2 == "-I" || t.take 2 == "-L" || t.take 2 == "-l") then
        setdefaultAppend kw.extra_compile_args t
      else kw.extra_compile_args := by
  unfold classifyToken
  split_ifs with h1 h2 h3 <;> simp_all

lemma foldl_classifyToken_include (tokens : List String) (init : FlagDict) :
    (tokens.foldl classifyToken init).include_dirs =
      ((tokens.filter (fun t => t.take 2 == "-I")).map (fun t => t.drop 2)).foldl
        setdefaultAppend init.include_dirs := by
  induction tokens generalizing init with
  | nil => rfl
  | cons t ts ih =>
    simp only [List.foldl_cons, List.filter_cons]
    by_cases h : t.take 2 == "-I"
    · simp only [h, if_pos, List.map_cons, List.foldl_cons]
      rw [ih, classifyToken_include, if_pos h]
    · simp only [h]
      rw [ih, classifyToken_include, if_neg h]
      simp [h]

lemma foldl_classifyToken_library (tokens : List String) (init : FlagDict) :
    (tokens.foldl classifyToken init).library_dirs =
      ((tokens.filter (fun t => t.take 2 == "-L")).map (fun t => t.drop 2)).foldl
        setdefaultAppend init.library_dirs := by
  induction tokens generalizing init with
  | nil => rfl
  | cons t ts ih =>
    simp only [List.foldl_cons, List.filter_cons]
    by_cases h : t.take 2 == "-L"
    · simp only [h, if_pos, List.map_cons, List.foldl_cons]
      rw [ih, classifyToken_library, if_pos h]
    · simp only [h]
      rw [ih, classifyToken_library, if_neg h]
      simp [h]

lemma foldl_classifyToken_libraries (tokens : List String) (init : FlagDict) :
    (tokens.foldl classifyToken init).libraries =
      ((tokens.filter (fun t => t.take 2 == "-l")).map (fun t => t.drop 2)).foldl
        setdefaultAppend init.libraries := by
  induction tokens generalizing init with
  | nil => rfl
  | cons t ts ih =>
    simp only [List.foldl_cons, List.filter_cons]
    by_cases h : t.take 2 == "-l"
    · simp only [h, if_pos, List.map_cons, List.foldl_cons]
      rw [ih, classifyToken_libraries, if_pos h]
    · simp only [h]
      rw [ih, classifyToken_libraries, if_neg h]
      simp [h]

lemma foldl_classifyToken_extra (tokens : List String) (init : FlagDict) :
    (tokens.foldl classifyToken init).extra_compile_args =
      (tokens.filter
        (fun t => !(t.take 2 == "-I" || t.take 2 == "-L" || t.take 2 == "-l"))).foldl
        setdefaultAppend init.extra_compile_args := by
  induction tokens generalizing init with
  | nil => rfl
  | cons t ts ih =>
    simp only [List.foldl_cons, List.filter_cons]
    by_cases h : (!(t.take 2 == "-I" || t.take 2 == "-L" || t.take 2 == "-l")) = true
    · simp only [h, if_pos, List.foldl_cons]
      rw [ih, classifyToken_extra, if_pos h]
    · simp only [h]
      rw [ih, classifyToken_extra, if_neg h]
      simp [h]

lemma bucketGet_map_uniq_foldl (l : List String) :
    bucketGet (Option.map uniq (l.foldl setdefaultAppend none)) = uniq l := by
  rw [foldl_setdefaultAppend_none]
  cases l <;> simp [bucketGet, uniq, uniqAux]

lemma uniqAux_nodup_and_fresh (l : List String) :
    ∀ seen : List String, (uniqAux seen l).Nodup ∧ ∀ x ∈ uniqAux seen l, x ∉ seen := by
  induction l with
  | nil => intro seen; simp [uniqAux]
  | cons x xs ih =>
    intro seen
    by_cases h : x ∈ seen
    · simpa [uniqAux, h] using ih seen
    · have h2 := ih (x :: seen)
      have hrw : uniqAux seen (x :: xs) = x :: uniqAux (x :: seen) xs := by
        simp [uniqAux, h]
      constructor
      · rw [hrw, List.nodup_cons]
        refine ⟨fun hx => ?_, h2.1⟩
        exact h2.2 x hx (by simp)
      · intro y hy
        rw [hrw, List.mem_cons] at hy
        rcases hy with rfl | hy
        · exact h
        · have := h2.2 y hy
          intro hc
          exact this (by simp [hc])

lemma uniq_nodup (l : List String) : (uniq l).Nodup :=
  (uniqAux_nodup_and_fresh l []).1

lemma uniq_cons_ne_nil (x : String) (xs : List String) : uniq (x :: xs) ≠ [] := by
  simp [uniq, uniqAux]

lemma classify_include_dirs (tokens : List String) :
    bucketGet (classify tokens).include_dirs
      = uniq ((tokens.filter (fun t => t.take 2 == "-I")).map (fun t => t.drop 2)) := by
  simp only [classify, FlagDict.mapBuckets, classifyRaw]
  rw [foldl_classifyToken_include]
  exact bucketGet_map_uniq_foldl _

lemma classify_library_dirs (tokens : List String) :
    bucketGet (classify tokens).library_dirs
      = uniq ((tokens.filter (fun t => t.take 2 == "-L")).map (fun t => t.drop 2)) := by
  simp only [classify, FlagDict.mapBuckets, classifyRaw]
  rw [foldl_classifyToken_library]
  exact bucketGet_map_uniq_foldl _

lemma classify_libraries (tokens : List String) :
    bucketGet (classify tokens).libraries
      = uniq ((tokens.filter (fun t => t.take 2 == "-l")).map (fun t => t.drop 2)) := by
  simp only [classify, FlagDict.mapBuckets, classifyRaw]
  rw [foldl_classifyToken_libraries]
  exact bucketGet_map_uniq_foldl _

lemma classify_extra (tokens : List String) :
    bucketGet (classify tokens).extra_compile_args
      = uniq (tokens.filter
          (fun t => !(t.take 2 == "-I" || t.take 2 == "-L" || t.take 2 == "-l"))) := by
  simp only [classify, FlagDict.mapBuckets, classifyRaw]
  rw [foldl_classifyToken_extra]
  have := bucketGet_map_uniq_foldl (tokens.filter
      (fun t => !(t.take 2 == "-I" || t.take 2 == "-L" || t.take 2 == "-l")))
  simpa using this

lemma classify_libraries_some_ne_nil (tokens : List String) (l : List String)
    (h : (classify tokens).libraries = some l) : l ≠ [] := by
  simp only [classify, FlagDict.mapBuckets, classifyRaw] at h
  rw [foldl_classifyToken_libraries] at h
  have hnone : (({} : FlagDict)).libraries = none := rfl
  rw [hnone, foldl_setdefaultAppend_none] at h
  rcases hm : (tokens.filter (fun t => t.take 2 == "-l")).map (fun t => t.drop 2) with
    _ | ⟨x, xs⟩
  · rw [hm] at h; simp at h
  · rw [hm] at h
    simp only [List.isEmpty_cons, Option.map_some] at h
    have : l = uniq (x :: xs) := by
      simpa using h.symm
    rw [this]
    exact uniq_cons_ne_nil x xs

lemma pkgconfig_libraries_some_ne_nil (rc : Int) (out : String) (l : List String)
    (h : (pkgconfig rc out).libraries = some l) : l ≠ [] := by
  unfold pkgconfig at h
  split at h
  · exact absurd h (by simp [FlagDict.mk])
  · exact classify_libraries_some_ne_nil _ _ h

/-- C1: For every whitespace-tokenized input, the flag classifier sends each
token whose first two characters are "-I", "-L" or "-l" to the include-dirs,
library-dirs or libraries bucket respectively (adding the remainder after the
two-character prefix), appends every other token verbatim to the
extra-compile-args bucket, and then deduplicates every bucket preserving
first-occurrence order; in particular classifying ["-Ia", "-Ib", "-Ia"] yields
include-dirs ["a", "b"]. -/
theorem classify_buckets (tokens : List String) :
    bucketGet (classify tokens).include_dirs
        = uniq ((tokens.filter (fun t => t.take 2 == "-I")).map (fun t => t.drop 2))
    ∧ bucketGet (classify tokens).library_dirs
        = uniq ((tokens.filter (fun t => t.take 2 == "-L")).map (fun t => t.drop 2))
    ∧ bucketGet (classify tokens).libraries
        = uniq ((tokens.filter (fun t => t.take 2 == "-l")).map (fun t => t.drop 2))
    ∧ bucketGet (classify tokens).extra_compile_args
        = uniq (tokens.filter
            (fun t => !(t.take 2 == "-I" || t.take 2 == "-L" || t.take 2 == "-l")))
    ∧ (bucketGet (classify tokens).include_dirs).Nodup
    ∧ (bucketGet (classify tokens).library_dirs).Nodup
    ∧ (bucketGet (classify tokens).libraries).Nodup
    ∧ (bucketGet (classify tokens).extra_compile_args).Nodup
    ∧ bucketGet (classify ["-Ia", "-Ib", "-Ia"]).include_dirs = ["a", "b"] := by
  refine ⟨classify_include_dirs tokens, classify_library_dirs tokens,
    classify_libraries tokens, classify_extra tokens, ?_, ?_, ?_, ?_, by decide⟩
  · rw [classify_include_dirs]; exact uniq_nodup _
  · rw [classify_library_dirs]; exact uniq_nodup _
  · rw [classify_libraries]; exact uniq_nodup _
  · rw [classify_extra]; exact uniq_nodup _

/-- C2 counterexample: when the provider exits non-zero, `pkgconfig` returns
the empty dict, in which the libraries bucket is absent, not present with an
empty list; the claim that all four buckets are present but empty is false. -/
theorem pkgconfig_failed_counterexample :
    (pkgconfig 1 "").libraries = none
    ∧ ¬ ((pkgconfig 1 "").libraries = some []
          ∧ (pkgconfig 1 "").include_dirs = some []
          ∧ (pkgconfig 1 "").library_dirs = some []
          ∧ (pkgconfig 1 "").extra_compile_args = some []) := by
  constructor
  · rfl
  · intro h
    exact absurd h.1 (by decide)

/-- C2 amended: when the external provider exits with non-zero status,
`pkgconfig` returns the empty FlagBucket in which no bucket is present at all
(each of the four buckets is absent, so a lookup with an empty default yields
the empty list); it never returns a missing value and never raises. -/
theorem pkgconfig_failed_empty (rc : Int) (out : String) (h : rc ≠ 0) :
    pkgconfig rc out = ({} : FlagDict)
    ∧ (pkgconfig rc out).include_dirs = none
    ∧ (pkgconfig rc out).library_dirs = none
    ∧ (pkgconfig rc out).libraries = none
    ∧ (pkgconfig rc out).extra_compile_args = none
    ∧ bucketGet (pkgconfig rc out).include_dirs = []
    ∧ bucketGet (pkgconfig rc out).library_dirs = []
    ∧ bucketGet (pkgconfig rc out).libraries = []
    ∧ bucketGet (pkgconfig rc out).extra_compile_args = [] := by
  have he : pkgconfig rc out = ({} : FlagDict) := by
    unfold pkgconfig
    rw [if_pos h]
  refine ⟨he, ?_, ?_, ?_, ?_, ?_, ?_, ?_, ?_⟩ <;> rw [he] <;> rfl

/-- The record built by `bob_variables` (`setup.py` lines 93-133): the
toolbox version plus the two base directories, each of which may be missing
when its `pkg-config --variable` query fails. -/
structure BobVars where
  version : String
  base_libdir : Option String
  base_includedir : Option String
deriving DecidableEq, Repr

/-- Python `str.strip()` with no argument: remove leading and trailing
whitespace characters. -/
def pyStrip (s : String) : String :=
  ⟨((s.data.dropWhile Char.isWhitespace).reverse.dropWhile Char.isWhitespace).reverse⟩

/-- The inner helper `get_var(name)` of `bob_variables`: run the provider for
one named variable, strip the output, and return it on exit status zero,
returning a missing value on non-zero exit.  The provider is passed in as a
function from the variable name to its exit status and decoded output. -/
def get_var (varProvider : String → Int × String) (name : String) : Option String :=
  if (varProvider name).1 ≠ 0 then none else some (pyStrip (varProvider name).2)

/-- The function `bob_variables()` of `setup.py`: query `--modversion`; when
that query exits non-zero the stored version is missing and a runtime error
is raised, otherwise the record is completed with the two base directory
variables.  The modversion provider result and the per-variable provider are
passed in explicitly. -/
def bob_variables (modProvider : Int × String) (varProvider : String → Int × String) :
    Except String BobVars :=
  let output := pyStrip modProvider.2
  if modProvider.1 ≠ 0 then
    Except.error ("Cannot retrieve Bob version from pkg-config:\n" ++ output)
  else
    Except.ok { version := output
                base_libdir := get_var varProvider "libdir"
                base_includedir := get_var varProvider "includedir" }

/-- C7 counterexample: when the modversion query exits with status zero but
prints only whitespace, `bob_variables` still produces a record, and that
record's version string is empty — refuting the claim that every record
produced has a non-empty version string. -/
theorem bob_variables_empty_version_counterexample :
    bob_variables (0, "\n") (fun _ => (1, "")) = Except.ok ⟨"", none, none⟩
    ∧ (BobVars.mk "" none none).version = "" := by
  constructor
  · unfold bob_variables get_var
    norm_num
    decide
  · rfl

/-- C7 amended: when the modversion query exits non-zero, `bob_variables`
raises an error carrying the trimmed provider output and no record at all is
produced; conversely every record produced comes from a zero exit status and
carries the trimmed provider output as its version — which is non-empty only
when the provider printed non-whitespace text, an exit-zero blank output
yielding a record whose version is the empty string. -/
theorem bob_variables_version (modProvider : Int × String)
    (varProvider : String → Int × String) :
    (modProvider.1 ≠ 0 →
      bob_variables modProvider varProvider
        = Except.error ("Cannot retrieve Bob version from pkg-config:\n"
            ++ pyStrip modProvider.2))
    ∧ (∀ r : BobVars, bob_variables modProvider varProvider = Except.ok r →
        modProvider.1 = 0 ∧ r.version = pyStrip modProvider.2) := by
  constructor
  · intro h
    unfold bob_variables
    rw [if_pos h]
  · intro r hr
    unfold bob_variables at hr
    split at hr
    · exact absurd hr (by simp)
    · rename_i h
      push_neg at h
      refine ⟨h, ?_⟩
      have := Except.ok.inj hr
      rw [← this]

/-- Witness for the amended C7 theorem: a failing modversion query at exit
status 1 produces exactly the runtime error carrying the trimmed output. -/
theorem bob_variables_version_witness :
    bob_variables (1, " boom ") (fun _ => (0, ""))
      = Except.error ("Cannot retrieve Bob version from pkg-config:\n"
          ++ pyStrip " boom ") :=
  (bob_variables_version (1, " boom ") (fun _ => (0, ""))).1 (by decide)

/-- Witness for the amended C2 theorem at the concrete exit status 1. -/
theorem pkgconfig_failed_empty_witness :
    pkgconfig 1 "garbage" = ({} : FlagDict)
    ∧ (pkgconfig 1 "garbage").include_dirs = none
    ∧ (pkgconfig 1 "garbage").library_dirs = none
    ∧ (pkgconfig 1 "garbage").libraries = none
    ∧ (pkgconfig 1 "garbage").extra_compile_args = none
    ∧ bucketGet (pkgconfig 1 "garbage").include_dirs = []
    ∧ bucketGet (pkgconfig 1 "garbage").library_dirs = []
    ∧ bucketGet (pkgconfig 1 "garbage").libraries = []
    ∧ bucketGet (pkgconfig 1 "garbage").extra_compile_args = [] :=
  pkgconfig_failed_empty 1 "garbage" (by decide)

/-- Python exceptions that the descriptor builder can raise: a `KeyError`
(from indexing a dict with a missing key) carrying the key, or an
`AttributeError` (from calling a string method on `None`) carrying the
interpreter's message. -/
inductive PyError where
  | keyError (key : String)
  | attributeError (msg : String)
deriving DecidableEq, Repr

/-- The text carried by the exception: for `KeyError` the offending key. -/
def PyError.message : PyError → String
  | .keyError k => k
  | .attributeError m => m

/-- Boolean test that one character list is a prefix of another. -/
def charsPrefix : List Char → List Char → Bool
  | [], _ => true
  | _ :: _, [] => false
  | p :: ps, c :: cs => p == c && charsPrefix ps cs

/-- Boolean substring containment on character lists. -/
def charsContains : List Char → List Char → Bool
  | [], pat => pat.isEmpty
  | c :: cs, pat => charsPrefix pat (c :: cs) || charsContains cs pat

/-- Python substring containment `s.find(pat) != -1`, used both for the
CYGWIN platform test and to ask whether an error message mentions a name. -/
def strContains (s pat : String) : Bool := charsContains s.data pat.data

/-- Boolean test that a string starts with the given literal. -/
def strStartsWith (s pat : String) : Bool := charsPrefix pat.data s.data

/-- Boolean test that a string ends with the given literal. -/
def strEndsWith (s pat : String) : Bool := charsPrefix pat.data.reverse s.data.reverse

/-- Python `s.lstrip(os.sep)` on POSIX: remove every leading `/`. -/
def lstripSep (s : String) : String := ⟨s.data.dropWhile (fun c => c == '/')⟩

/-- Python `s.strip(os.sep)` on POSIX: remove every leading and trailing
`/`. -/
def stripSep (s : String) : String :=
  ⟨((s.data.dropWhile (fun c => c == '/')).reverse.dropWhile
      (fun c => c == '/')).reverse⟩

/-- Python `os.path.join(a, b)` on POSIX: an absolute `b` replaces `a`,
otherwise `b` is appended after a separator unless `a` is empty or already
ends with one. -/
def osPathJoin (a b : String) : String :=
  if strStartsWith b "/" then b
  else if a == "" || strEndsWith a "/" then a ++ b
  else a ++ "/" ++ b

/-- The record produced by `setuptools.Extension` as `setup_extension`
fills it in (`setup.py` lines 208-216). -/
structure Extension where
  name : String
  sources : List String
  include_dirs : List String
  library_dirs : List String
  runtime_library_dirs : List String
  libraries : List String
deriving DecidableEq, Repr

/-- The caged-build block of `setup_extension` (`setup.py` lines 197-200):
when `DESTDIR` is non-empty, prepend the joined caged base directories.
Calling `lstrip`/`strip` on a missing base directory models the
`AttributeError` Python raises on `None`; it is raised for the library
directory first, exactly as the statements execute in order. -/
def cagedDirs (destdir : String) (bob : BobVars)
    (library_dirs include_dirs : List String) :
    Except PyError (List String × List String) :=
  if destdir.length ≠ 0 then
    match bob.base_libdir with
    | none => Except.error (PyError.attributeError "NoneType object has no attribute lstrip")
    | some bl =>
      match bob.base_includedir with
      | none => Except.error (PyError.attributeError "NoneType object has no attribute strip")
      | some bi =>
        Except.ok (osPathJoin destdir (lstripSep bl) :: library_dirs,
                   osPathJoin destdir (stripSep bi) :: include_dirs)
  else Except.ok (library_dirs, include_dirs)

/-- The dict lookup `pc['libraries']` (`setup.py` line 215): raises
`KeyError('libraries')` when the bucket is absent. -/
def getLibraries (pc : FlagDict) : Except PyError (List String) :=
  match pc.libraries with
  | none => Except.error (PyError.keyError "libraries")
  | some libs => Except.ok libs

/-- Run `pkgconfig` against a provider for a given package name. -/
def pkgconfigOf (provider : String → Int × String) (package : String) : FlagDict :=
  pkgconfig (provider package).1 (provider package).2

/-- The function `setup_extension(ext_name, pc_file)` of `setup.py` (lines
185-216).  External collaborators appear as parameters: the package
description provider, the filesystem existence test, the `DESTDIR`
environment value, the global `BOB` record, `platform.system()`, the numpy
include directory and the two-component interpreter version.  The package
queried is `pc_file` suffixed with the interpreter version digits; both
directory buckets are filtered to existing paths; the caged prefixes are
prepended when `DESTDIR` is non-empty; CYGWIN platforms get the placeholder
source; the libraries bucket is indexed directly, raising `KeyError` when
absent. -/
def setup_extension (provider : String → Int × String) (pathExists : String → Bool)
    (destdir : String) (bob : BobVars) (platformSystem numpyInclude : String)
    (pyMajor pyMinor : Nat) (ext_name pc_file : String) : Except PyError Extension :=
  let pc := pkgconfigOf provider (pc_file ++ toString pyMajor ++ toString pyMinor)
  let library_dirs := (bucketGet pc.library_dirs).filter pathExists
  let include_dirs := (bucketGet pc.include_dirs).filter pathExists
  match cagedDirs destdir bob library_dirs include_dirs with
  | Except.error e => Except.error e
  | Except.ok (ldirs, idirs) =>
    match getLibraries pc with
    | Except.error e => Except.error e
    | Except.ok libs =>
      Except.ok { name := ext_name
                  sources := if strContains platformSystem "CYGWIN" then ["empty.c"] else []
                  include_dirs := idirs ++ [numpyInclude]
                  library_dirs := ldirs
                  runtime_library_dirs := ldirs
                  libraries := libs }

/-- C5: For every call to the extension descriptor builder with a non-empty
caging root that produces a descriptor, the descriptor's library-dirs list
is exactly the join of the caging root with the base library directory
(leading separator stripped) prepended before all discovered, existing
library dirs, and the include-dirs list analogously has the join with the
base include directory (leading and trailing separators stripped) prepended
before the discovered include dirs (with the numpy include appended at the
end); the runtime library dirs equal the library dirs. -/
theorem setup_extension_caged_paths (provider : String → Int × String)
    (pathExists : String → Bool) (destdir : String) (bob : BobVars)
    (platformSystem numpyInclude : String) (pyMajor pyMinor : Nat)
    (ext_name pc_file : String) (ext : Extension)
    (hd : destdir.length ≠ 0)
    (h : setup_extension provider pathExists destdir bob platformSystem numpyInclude
          pyMajor pyMinor ext_name pc_file = Except.ok ext) :
    ∃ bl bi, bob.base_libdir = some bl ∧ bob.base_includedir = some bi
      ∧ ext.library_dirs = osPathJoin destdir (lstripSep bl) ::
          ((bucketGet (pkgconfigOf provider
              (pc_file ++ toString pyMajor ++ toString pyMinor)).library_dirs).filter
            pathExists)
      ∧ ext.runtime_library_dirs = ext.library_dirs
      ∧ ext.include_dirs = osPathJoin destdir (stripSep bi) ::
          (((bucketGet (pkgconfigOf provider
              (pc_file ++ toString pyMajor ++ toString pyMinor)).include_dirs).filter
            pathExists) ++ [numpyInclude]) := by
  cases hbl : bob.base_libdir with
  | none => simp [setup_extension, cagedDirs, hd, hbl] at h
  | some bl =>
    cases hbi : bob.base_includedir with
    | none => simp [setup_extension, cagedDirs, hd, hbl, hbi] at h
    | some bi =>
      cases hlib : (pkgconfigOf provider
          (pc_file ++ toString pyMajor ++ toString pyMinor)).libraries with
      | none => simp [setup_extension, cagedDirs, getLibraries, hd, hbl, hbi, hlib] at h
      | some libs =>
        simp [setup_extension, cagedDirs, getLibraries, hd, hbl, hbi, hlib] at h
        exact ⟨bl, bi, rfl, rfl, by rw [← h], by rw [← h], by rw [← h]⟩

/-- Witness for the C5 theorem: with caging root "/stage", base library
directory "/usr/lib", base include directory "/usr/include" and a provider
output "-L/usr/local/lib -lfoo" whose paths all exist, the resulting
library-dirs list is ["/stage/usr/lib", "/usr/local/lib"]. -/
theorem setup_extension_caged_paths_witness :
    ∃ bl bi,
      (BobVars.mk "1.0" (some "/usr/lib") (some "/usr/include")).base_libdir = some bl
      ∧ (BobVars.mk "1.0" (some "/usr/lib") (some "/usr/include")).base_includedir
          = some bi
      ∧ (Extension.mk "bob.core._core" [] ["/stage/usr/include", "/np"]
            ["/stage/usr/lib", "/usr/local/lib"] ["/stage/usr/lib", "/usr/local/lib"]
            ["foo"]).library_dirs
          = osPathJoin "/stage" (lstripSep bl) ::
              ((bucketGet (pkgconfigOf (fun _ => (0, "-L/usr/local/lib -lfoo"))
                  ("bob-core-py" ++ toString 2 ++ toString 7)).library_dirs).filter
                (fun _ => true))
      ∧ (Extension.mk "bob.core._core" [] ["/stage/usr/include", "/np"]
            ["/stage/usr/lib", "/usr/local/lib"] ["/stage/usr/lib", "/usr/local/lib"]
            ["foo"]).runtime_library_dirs
          = (Extension.mk "bob.core._core" [] ["/stage/usr/include", "/np"]
              ["/stage/usr/lib", "/usr/local/lib"] ["/stage/usr/lib", "/usr/local/lib"]
              ["foo"]).library_dirs
      ∧ (Extension.mk "bob.core._core" [] ["/stage/usr/include", "/np"]
            ["/stage/usr/lib", "/usr/local/lib"] ["/stage/usr/lib", "/usr/local/lib"]
            ["foo"]).include_dirs
          = osPathJoin "/stage" (stripSep bi) ::
              (((bucketGet (pkgconfigOf (fun _ => (0, "-L/usr/local/lib -lfoo"))
                  ("bob-core-py" ++ toString 2 ++ toString 7)).include_dirs).filter
                (fun _ => true)) ++ ["/np"]) :=
  setup_extension_caged_paths (fun _ => (0, "-L/usr/local/lib -lfoo")) (fun _ => true)
    "/stage" (BobVars.mk "1.0" (some "/usr/lib") (some "/usr/include")) "Linux" "/np"
    2 7 "bob.core._core" "bob-core-py"
    (Extension.mk "bob.core._core" [] ["/stage/usr/include", "/np"]
      ["/stage/usr/lib", "/usr/local/lib"] ["/stage/usr/lib", "/usr/local/lib"]
      ["foo"])
    (by decide) rfl

/-- C6 counterexample: a package query that resolves to zero libraries (the
provider exits zero with empty output) makes `setup_extension` raise the
key-lookup error for the missing libraries bucket, and that error's text
does not mention the logical extension name "bob.core._core" — refuting the
claim that the failure identifies the offending logical extension name. -/
theorem setup_extension_error_counterexample :
    setup_extension (fun _ => (0, "")) (fun _ => true) "" (BobVars.mk "1.0" none none)
        "Linux" "/np" 2 7 "bob.core._core" "bob-core-py"
      = Except.error (PyError.keyError "libraries")
    ∧ strContains (PyError.message (PyError.keyError "libraries")) "bob.core._core"
        = false := by
  constructor
  · rfl
  · rfl

/-- C6 amended: when the package query for a logical extension resolves to
zero required libraries, `setup_extension` always fails with an error — a
key-lookup failure naming the missing libraries bucket whenever the
caged-path step does not fail first (in particular whenever the caging root
is empty) — rather than an error identifying the logical extension name;
and it never returns a descriptor whose libraries list is empty. -/
theorem setup_extension_no_libraries (provider : String → Int × String)
    (pathExists : String → Bool) (destdir : String) (bob : BobVars)
    (platformSystem numpyInclude : String) (pyMajor pyMinor : Nat)
    (ext_name pc_file : String) :
    ((pkgconfigOf provider
        (pc_file ++ toString pyMajor ++ toString pyMinor)).libraries = none →
      (∀ ext : Extension,
        setup_extension provider pathExists destdir bob platformSystem numpyInclude
            pyMajor pyMinor ext_name pc_file ≠ Except.ok ext)
      ∧ (destdir.length = 0 →
          setup_extension provider pathExists destdir bob platformSystem numpyInclude
              pyMajor pyMinor ext_name pc_file
            = Except.error (PyError.keyError "libraries")))
    ∧ (∀ ext : Extension,
        setup_extension provider pathExists destdir bob platformSystem numpyInclude
            pyMajor pyMinor ext_name pc_file = Except.ok ext →
        ext.libraries ≠ []) := by
  constructor
  · intro hlib
    constructor
    · intro ext h
      rcases hc : cagedDirs destdir bob
          ((bucketGet (pkgconfigOf provider
              (pc_file ++ toString pyMajor ++ toString pyMinor)).library_dirs).filter
            pathExists)
          ((bucketGet (pkgconfigOf provider
              (pc_file ++ toString pyMajor ++ toString pyMinor)).include_dirs).filter
            pathExists) with e | p
      · simp [setup_extension, hc] at h
      · rcases p with ⟨ldirs, idirs⟩
        simp [setup_extension, hc, getLibraries, hlib] at h
    · intro h0
      have hc : cagedDirs destdir bob
          ((bucketGet (pkgconfigOf provider
              (pc_file ++ toString pyMajor ++ toString pyMinor)).library_dirs).filter
            pathExists)
          ((bucketGet (pkgconfigOf provider
              (pc_file ++ toString pyMajor ++ toString pyMinor)).include_dirs).filter
            pathExists)
          = Except.ok
              (((bucketGet (pkgconfigOf provider
                  (pc_file ++ toString pyMajor ++ toString pyMinor)).library_dirs).filter
                pathExists),
               ((bucketGet (pkgconfigOf provider
                  (pc_file ++ toString pyMajor ++ toString pyMinor)).include_dirs).filter
                pathExists)) := by
        unfold cagedDirs
        rw [if_neg (by simp [h0])]
      simp [setup_extension, hc, getLibraries, hlib]
  · intro ext h
    rcases hc : cagedDirs destdir bob
        ((bucketGet (pkgconfigOf provider
            (pc_file ++ toString pyMajor ++ toString pyMinor)).library_dirs).filter
          pathExists)
        ((bucketGet (pkgconfigOf provider
            (pc_file ++ toString pyMajor ++ toString pyMinor)).include_dirs).filter
          pathExists) with e | p
    · simp [setup_extension, hc] at h
    · rcases p with ⟨ldirs, idirs⟩
      rcases hlib : (pkgconfigOf provider
          (pc_file ++ toString pyMajor ++ toString pyMinor)).libraries with _ | libs
      · simp [setup_extension, hc, getLibraries, hlib] at h
      · have hext : ext.libraries = libs := by
          simp [setup_extension, hc, getLibraries, hlib] at h
          rw [← h]
        rw [hext]
        exact pkgconfig_libraries_some_ne_nil
          (provider (pc_file ++ toString pyMajor ++ toString pyMinor)).1
          (provider (pc_file ++ toString pyMajor ++ toString pyMinor)).2 libs hlib

/-- Witness for the amended C6 theorem: a provider exiting zero with no
output and an empty caging root produce exactly the key error naming the
libraries bucket. -/
theorem setup_extension_no_libraries_witness :
    setup_extension (fun _ => (0, "")) (fun _ => true) "" (BobVars.mk "1.0" none none)
        "Linux" "/np" 2 7 "bob.io._io" "bob-io-py"
      = Except.error (PyError.keyError "libraries") :=
  ((setup_extension_no_libraries (fun _ => (0, "")) (fun _ => true) ""
      (BobVars.mk "1.0" none none) "Linux" "/np" 2 7 "bob.io._io" "bob-io-py").1
    rfl).2 rfl

/-- C10: when the modversion query succeeds but a per-variable query for the
base library or base include directory exits non-zero, `bob_variables`
still returns a record without error with a missing value in the
corresponding field, and every subsequent caged build (non-empty caging
root) with that record fails with the attribute error Python raises when
joining the caging root with a missing base directory. -/
theorem none_basedirs_caged_build_fails (modProvider : Int × String)
    (varProvider : String → Int × String)
    (h0 : modProvider.1 = 0)
    (hv : (varProvider "libdir").1 ≠ 0 ∨ (varProvider "includedir").1 ≠ 0) :
    ∃ r : BobVars, bob_variables modProvider varProvider = Except.ok r
      ∧ ((varProvider "libdir").1 ≠ 0 → r.base_libdir = none)
      ∧ ((varProvider "includedir").1 ≠ 0 → r.base_includedir = none)
      ∧ ∀ (provider : String → Int × String) (pathExists : String → Bool)
          (destdir platformSystem numpyInclude : String) (pyMajor pyMinor : Nat)
          (ext_name pc_file : String),
          destdir.length ≠ 0 →
          ∃ msg, setup_extension provider pathExists destdir r platformSystem
              numpyInclude pyMajor pyMinor ext_name pc_file
            = Except.error (PyError.attributeError msg) := by
  refine ⟨BobVars.mk (pyStrip modProvider.2) (get_var varProvider "libdir")
      (get_var varProvider "includedir"), ?_, ?_, ?_, ?_⟩
  · simp [bob_variables, h0]
  · intro h
    simp [get_var, h]
  · intro h
    simp [get_var, h]
  · intro provider pathExists destdir platformSystem numpyInclude pyMajor pyMinor
      ext_name pc_file hdd
    rcases hv with hv | hv
    · have hbl : get_var varProvider "libdir" = none := by simp [get_var, hv]
      exact ⟨"NoneType object has no attribute lstrip",
        by simp [setup_extension, cagedDirs, hdd, hbl]⟩
    · have hbi : get_var varProvider "includedir" = none := by simp [get_var, hv]
      rcases hbl : get_var varProvider "libdir" with _ | bl
      · exact ⟨"NoneType object has no attribute lstrip",
          by simp [setup_extension, cagedDirs, hdd, hbl]⟩
      · exact ⟨"NoneType object has no attribute strip",
          by simp [setup_extension, cagedDirs, hdd, hbl, hbi]⟩

/-- Witness for the C10 theorem: modversion succeeding with "1.2.0" while
every variable query exits with status 1. -/
theorem none_basedirs_caged_build_fails_witness :
    ∃ r : BobVars, bob_variables (0, "1.2.0") (fun _ => (1, "")) = Except.ok r
      ∧ ((1 : Int) ≠ 0 → r.base_libdir = none)
      ∧ ((1 : Int) ≠ 0 → r.base_includedir = none)
      ∧ ∀ (provider : String → Int × String) (pathExists : String → Bool)
          (destdir platformSystem numpyInclude : String) (pyMajor pyMinor : Nat)
          (ext_name pc_file : String),
          destdir.length ≠ 0 →
          ∃ msg, setup_extension provider pathExists destdir r platformSystem
              numpyInclude pyMajor pyMinor ext_name pc_file
            = Except.error (PyError.attributeError msg) :=
  none_basedirs_caged_build_fails (0, "1.2.0") (fun _ => (1, "")) rfl
    (Or.inl (by decide))

/-- Outcome of one run of `linker_can_remove_symbols` (`setup.py` lines
149-164), recording both what the call produces — a returned capability
boolean or a propagating exception — and whether the throwaway temporary
file created by `tempfile.mkstemp` has been removed when control leaves the
function. -/
inductive ProbeResult where
  | ok (capable : Bool) (tmpRemoved : Bool)
  | exn (e : String) (tmpRemoved : Bool)
deriving DecidableEq, Repr

/-- Whether the temporary file had been removed when control left the
probe. -/
def ProbeResult.tmpRemoved : ProbeResult → Bool
  | ProbeResult.ok _ r => r
  | ProbeResult.exn _ r => r

/-- The probe `linker_can_remove_symbols(linker)`: `tempfile.mkstemp`
creates the throwaway file, the linker is invoked with the candidate flag, a
trivial library reference and the throwaway output path, and the capability
is reported iff the exit status is zero.  The function body has no
`try/finally`: the conditional `os.unlink(name)` on line 163 runs only after
`Popen`/`communicate` return normally, so when the link invocation raises an
exception the unlink statement is never reached and the file stays behind. -/
def linker_can_remove_symbols (link : List String → Except String Int)
    (linker : List String) (tmpName : String) : ProbeResult :=
  match link (linker ++ ["-Wl,--no-as-needed", "-lm", "-o", tmpName]) with
  | Except.error e => ProbeResult.exn e false
  | Except.ok rc => ProbeResult.ok (rc == 0) true

/-- The helper `ld_ok(opt)` of `build_extension`: Python
`opt.find('-L') == 0` holds exactly when the option starts with "-L", and
such options are rejected. -/
def ld_ok (opt : String) : Bool := !(strStartsWith opt "-L")

/-- The mutable state of the single `build_ext` command object: the
memoized probe verdict `linker_is_smart` (class default `None`) and the
compiler's `linker_so` token list. -/
structure BuildState where
  linker_is_smart : Option Bool
  linker_so : List String
deriving DecidableEq, Repr

/-- One call of `build_ext.build_extension` (`setup.py` lines 146-183),
restricted to its linker-management effects: first the sanitization of
`linker_so` through `ld_ok`, then — only when `linker_is_smart` is still
unset — one probe run on the sanitized invocation, memoizing the verdict
and appending the capability flag on success.  The second component lists
the linker invocations probed during the call, so its length counts link
attempts (each of which creates one temporary file). -/
def build_extension_step (link : List String → Int) (tmpName : String)
    (s : BuildState) : BuildState × List (List String) :=
  let cleaned := s.linker_so.filter ld_ok
  match s.linker_is_smart with
  | some b => ({ linker_is_smart := some b, linker_so := cleaned }, [])
  | none =>
    let v := match linker_can_remove_symbols (fun cmd => Except.ok (link cmd))
        cleaned tmpName with
      | ProbeResult.ok capable _ => capable
      | ProbeResult.exn _ _ => false
    ({ linker_is_smart := some v,
       linker_so := if v then cleaned ++ ["-Wl,--no-as-needed"] else cleaned },
     [cleaned])

/-- A sequence of `n` extension builds on one command object, accumulating
every linker invocation probed along the way. -/
def runBuilds (link : List String → Int) (tmpName : String) :
    Nat → BuildState → BuildState × List (List String)
  | 0, s => (s, [])
  | n + 1, s =>
    let r1 := build_extension_step link tmpName s
    let r2 := runBuilds link tmpName n r1.1
    (r2.1, r1.2 ++ r2.2)

lemma build_step_some (link : List String → Int) (tmpName : String)
    (s : BuildState) (b : Bool) (h : s.linker_is_smart = some b) :
    build_extension_step link tmpName s
      = ({ linker_is_smart := some b, linker_so := s.linker_so.filter ld_ok }, []) := by
  simp [build_extension_step, h]

lemma build_step_none (link : List String → Int) (tmpName : String)
    (s : BuildState) (h : s.linker_is_smart = none) :
    (build_extension_step link tmpName s).2 = [s.linker_so.filter ld_ok]
    ∧ ∃ b, (build_extension_step link tmpName s).1.linker_is_smart = some b := by
  simp [build_extension_step, h, linker_can_remove_symbols]

lemma runBuilds_from_some (link : List String → Int) (tmpName : String)
    (n : Nat) (s : BuildState) (b : Bool) (h : s.linker_is_smart = some b) :
    (runBuilds link tmpName n s).1.linker_is_smart = some b
    ∧ (runBuilds link tmpName n s).2 = [] := by
  induction n generalizing s with
  | zero => simp [runBuilds, h]
  | succ m ih =>
    have hstep := build_step_some link tmpName s b h
    have hrec := ih { linker_is_smart := some b, linker_so := s.linker_so.filter ld_ok }
      rfl
    show ((runBuilds link tmpName m (build_extension_step link tmpName s).1).1.linker_is_smart
          = some b)
      ∧ (build_extension_step link tmpName s).2
          ++ (runBuilds link tmpName m (build_extension_step link tmpName s).1).2 = []
    rw [hstep]
    exact ⟨hrec.1, by simp [hrec.2]⟩

/-- C3: the linker capability probe is a write-once per-process cache:
starting from a fresh command object (verdict unset), any sequence of
extension builds performs at most one link attempt (hence creates at most
one temporary file), and once the verdict is memoized every later build
performs zero link attempts and the cached boolean never changes again. -/
theorem linker_probe_memoized (link : List String → Int) (tmpName : String)
    (s0 : BuildState) (n : Nat) :
    (s0.linker_is_smart = none → (runBuilds link tmpName n s0).2.length ≤ 1)
    ∧ (∀ b, s0.linker_is_smart = some b →
        (runBuilds link tmpName n s0).1.linker_is_smart = some b
        ∧ (runBuilds link tmpName n s0).2 = []) := by
  constructor
  · intro h
    cases n with
    | zero => simp [runBuilds]
    | succ m =>
      obtain ⟨h2, b, hb⟩ := build_step_none link tmpName s0 h
      have hrest := runBuilds_from_some link tmpName m _ b hb
      show ((build_extension_step link tmpName s0).2
          ++ (runBuilds link tmpName m (build_extension_step link tmpName s0).1).2).length
        ≤ 1
      rw [h2, hrest.2]
      simp
  · intro b h
    exact runBuilds_from_some link tmpName n s0 b h

/-- Witness for the C3 theorem: three successive builds from a fresh state
probe the linker at most once. -/
theorem linker_probe_memoized_witness :
    (runBuilds (fun _ => 0) "/tmp/t" 3 (BuildState.mk none ["cc", "-L/x"])).2.length
      ≤ 1 :=
  (linker_probe_memoized (fun _ => 0) "/tmp/t" (BuildState.mk none ["cc", "-L/x"]) 3).1
    rfl

/-- C4 counterexample: when the link invocation raises an exception (for
example the linker executable is missing), the probe propagates it with the
temporary file still on disk — the conditional unlink after the subprocess
call is never reached — refuting the claim that the throwaway file is
removed on every execution path. -/
theorem linker_probe_leak_counterexample :
    linker_can_remove_symbols (fun _ => Except.error "OSError") ["cc"] "/tmp/probe"
      = ProbeResult.exn "OSError" false
    ∧ ProbeResult.tmpRemoved
        (linker_can_remove_symbols (fun _ => Except.error "OSError") ["cc"] "/tmp/probe")
      = false := ⟨rfl, rfl⟩

/-- C4 amended: on the two normal execution paths of the probe — successful
link and failed link (non-zero exit) — the temporary output file is removed
before the probe returns; but when the link invocation raises an exception,
the exception propagates without the file being removed, since the cleanup
is not guarded by any `try/finally`. -/
theorem linker_probe_cleanup (link : List String → Except String Int)
    (linker : List String) (tmpName : String) :
    (∀ rc : Int,
        link (linker ++ ["-Wl,--no-as-needed", "-lm", "-o", tmpName]) = Except.ok rc →
        linker_can_remove_symbols link linker tmpName = ProbeResult.ok (rc == 0) true)
    ∧ (∀ e,
        link (linker ++ ["-Wl,--no-as-needed", "-lm", "-o", tmpName]) = Except.error e →
        linker_can_remove_symbols link linker tmpName = ProbeResult.exn e false) := by
  constructor <;> intro x h <;> simp [linker_can_remove_symbols, h]

/-- Witness for the amended C4 theorem: a link exiting with status zero
returns capability true with the temporary file removed. -/
theorem linker_probe_cleanup_witness :
    linker_can_remove_symbols (fun _ => Except.ok 0) [] "/tmp/t"
      = ProbeResult.ok true true :=
  (linker_probe_cleanup (fun _ => Except.ok 0) [] "/tmp/t").1 0 rfl

lemma mem_filter_ld_ok (l : List String) (o : String) (h : o ∈ l.filter ld_ok) :
    strStartsWith o "-L" = false := by
  have := (List.mem_filter.mp h).2
  simpa [ld_ok] using this

/-- C9: before any linker probing occurs, every token of the base linker
invocation that begins with "-L" is removed: each invocation probed during
a build step is exactly the base invocation filtered through `ld_ok`, the
state's linker invocation going forward is that filtered list possibly
extended by tokens not beginning with "-L", no token of the resulting
invocation begins with "-L", and every base token not beginning with "-L"
is kept. -/
theorem linker_sanitization (link : List String → Int) (tmpName : String)
    (s : BuildState) :
    (∀ inv ∈ (build_extension_step link tmpName s).2, inv = s.linker_so.filter ld_ok)
    ∧ (∃ extra, (build_extension_step link tmpName s).1.linker_so
          = s.linker_so.filter ld_ok ++ extra
        ∧ ∀ o ∈ extra, strStartsWith o "-L" = false)
    ∧ (∀ o ∈ (build_extension_step link tmpName s).1.linker_so,
        strStartsWith o "-L" = false)
    ∧ (∀ o ∈ s.linker_so, strStartsWith o "-L" = false →
        o ∈ s.linker_so.filter ld_ok) := by
  refine ⟨?_, ?_, ?_, ?_⟩
  · intro inv hinv
    cases hs : s.linker_is_smart with
    | some b => rw [build_step_some link tmpName s b hs] at hinv; simp at hinv
    | none =>
      rw [(build_step_none link tmpName s hs).1] at hinv
      simpa using hinv
  · cases hs : s.linker_is_smart with
    | some b =>
      refine ⟨[], ?_, by simp⟩
      rw [build_step_some link tmpName s b hs]
      simp
    | none =>
      by_cases hv : (match linker_can_remove_symbols (fun cmd => Except.ok (link cmd))
          (s.linker_so.filter ld_ok) tmpName with
        | ProbeResult.ok capable _ => capable
        | ProbeResult.exn _ _ => false) = true
      · refine ⟨["-Wl,--no-as-needed"], ?_, ?_⟩
        · simp only [build_extension_step, hs]
          rw [if_pos hv]
        · intro o ho
          simp only [List.mem_singleton] at ho
          rw [ho]
          decide
      · refine ⟨[], ?_, by simp⟩
        simp only [build_extension_step, hs]
        rw [if_neg hv]
        simp
  · intro o ho
    cases hs : s.linker_is_smart with
    | some b =>
      rw [build_step_some link tmpName s b hs] at ho
      exact mem_filter_ld_ok _ _ ho
    | none =>
      by_cases hv : (match linker_can_remove_symbols (fun cmd => Except.ok (link cmd))
          (s.linker_so.filter ld_ok) tmpName with
        | ProbeResult.ok capable _ => capable
        | ProbeResult.exn _ _ => false) = true
      · simp only [build_extension_step, hs] at ho
        rw [if_pos hv] at ho
        rcases List.mem_append.mp ho with h1 | h1
        · exact mem_filter_ld_ok _ _ h1
        · simp only [List.mem_singleton] at h1
          rw [h1]
          decide
      · simp only [build_extension_step, hs] at ho
        rw [if_neg hv] at ho
        exact mem_filter_ld_ok _ _ ho
  · intro o ho h
    refine List.mem_filter.mpr ⟨ho, ?_⟩
    simp [ld_ok, h]

/-- Witness for the C9 theorem: in a concrete build step the single probed
invocation is the base invocation with its "-L" token removed. -/
theorem linker_sanitization_witness :
    (["cc"] : List String)
      = (BuildState.mk none ["-L/usr/lib", "cc"]).linker_so.filter ld_ok :=
  (linker_sanitization (fun _ => 0) "/tmp/t" (BuildState.mk none ["-L/usr/lib", "cc"])).1
    ["cc"] (by decide)

/-- A value bound in the module's declaration scope, as the discovery loop
of `torch/filters.py` sees it: either a class (`isinstance(v, type)` holds),
identified by a class identity, or any other binding (a module, a list, a
function, ...). -/
inductive PyVal where
  | cls (c : Nat)
  | other (tag : Nat)
deriving DecidableEq, Repr

/-- The discovery loop at the bottom of `torch/filters.py` (lines 59-64):
iterate over every `(name, value)` binding of the scope snapshot and collect
`value` exactly when it is a class, `issubclass(value, Filter)` holds and it
is not the `Filter` base class itself.  The subclass relation and the base
class are parameters, since the scope's classes are declared elsewhere. -/
def discoverFilters (issub : Nat → Nat → Bool) (base : Nat) :
    List (String × PyVal) → List Nat
  | [] => []
  | (_, PyVal.cls c) :: rest =>
    if issub c base && c != base then c :: discoverFilters issub base rest
    else discoverFilters issub base rest
  | (_, PyVal.other _) :: rest => discoverFilters issub base rest

/-- A concrete subclass relation with base class 0 and proper descendants 1
and 2, mirroring `Filter` with variants such as `Crop`. -/
def demoSub (c b : Nat) : Bool := c == b || (b == 0 && (c == 1 || c == 2))

/-- A concrete declaration scope: the base, two descendants and a non-class
binding (the imported module). -/
def demoScope : List (String × PyVal) :=
  [("Filter", PyVal.cls 0), ("Crop", PyVal.cls 1), ("Flip", PyVal.cls 2),
   ("torch", PyVal.other 7)]

/-- C8: for every declaration scope, the discovery result contains a class
identity exactly when some name binds that class in the scope, it is a
subclass of the base capability, and it is not the base itself; with one
base and two proper descendants the result is exactly those two descendants
and never the base, and with no descendants the result is empty. -/
theorem filters_discovery (issub : Nat → Nat → Bool) (base : Nat)
    (scope : List (String × PyVal)) (c : Nat) :
    (c ∈ discoverFilters issub base scope ↔
      ((∃ name, (name, PyVal.cls c) ∈ scope) ∧ issub c base = true ∧ c ≠ base))
    ∧ discoverFilters demoSub 0 demoScope = [1, 2]
    ∧ 0 ∉ discoverFilters demoSub 0 demoScope
    ∧ discoverFilters demoSub 0 [("Filter", PyVal.cls 0)] = [] := by
  refine ⟨?_, by decide, by decide, by decide⟩
  induction scope with
  | nil => simp [discoverFilters]
  | cons kv rest ih =>
    rcases kv with ⟨name, v⟩
    cases v with
    | other tag =>
      simp only [discoverFilters]
      rw [ih]
      constructor
      · rintro ⟨⟨nm, hnm⟩, hs, hne⟩
        exact ⟨⟨nm, List.mem_cons_of_mem _ hnm⟩, hs, hne⟩
      · rintro ⟨⟨nm, hnm⟩, hs, hne⟩
        rcases List.mem_cons.mp hnm with heq | hmem
        · exact absurd heq (by simp)
        · exact ⟨⟨nm, hmem⟩, hs, hne⟩
    | cls d =>
      simp only [discoverFilters]
      by_cases hd : (issub d base && d != base) = true
      · rw [if_pos hd]
        simp only [bne_iff_ne, Bool.and_eq_true, ne_eq] at hd
        constructor
        · intro hc
          rcases List.mem_cons.mp hc with rfl | hc
          · exact ⟨⟨name, by simp⟩, hd.1, hd.2⟩
          · obtain ⟨⟨nm, hnm⟩, hs, hne⟩ := ih.mp hc
            exact ⟨⟨nm, List.mem_cons_of_mem _ hnm⟩, hs, hne⟩
        · rintro ⟨⟨nm, hnm⟩, hs, hne⟩
          rcases List.mem_cons.mp hnm with heq | hmem
          · have : d = c := by
              have := congrArg Prod.snd heq
              simpa using this.symm
            rw [this]
            exact List.mem_cons_self _ _
          · exact List.mem_cons_of_mem _ (ih.mpr ⟨⟨nm, hmem⟩, hs, hne⟩)
      · rw [if_neg hd]
        rw [ih]
        constructor
        · rintro ⟨⟨nm, hnm⟩, hs, hne⟩
          exact ⟨⟨nm, List.mem_cons_of_mem _ hnm⟩, hs, hne⟩
        · rintro ⟨⟨nm, hnm⟩, hs, hne⟩
          rcases List.mem_cons.mp hnm with heq | hmem
          · have hdc : d = c := by
              have := congrArg Prod.snd heq
              simpa using this.symm
            refine absurd ?_ hd
            rw [hdc]
            simp only [Bool.and_eq_true, bne_iff_ne, ne_eq]
            exact ⟨hs, hne⟩
          · exact ⟨⟨nm, hmem⟩, hs, hne⟩

/-- Witness for the C8 theorem: the descendant 1, bound as "Crop" in the
demo scope, is discovered. -/
theorem filters_discovery_witness : 1 ∈ discoverFilters demoSub 0 demoScope :=
  (filters_discovery demoSub 0 demoScope 1).1.mpr
    ⟨⟨"Crop", by decide⟩, rfl, by decide⟩

end Bob
